import Mathlib

/-
Verification of bin/xbps-rindex/sign.c: repository-index signing
(`sign_repo`) and detached package signing (`sign_pkg`, `sign_pkgs`).

The embedding models the external collaborators (OpenSSL, proplib
dictionaries, the filesystem, `repodata_flush`, repository locking) as
explicit environment parameters, and each C function as a Lean function
from that environment to an explicit result carrying the return value,
the sequence of externally visible steps taken, and the data handed to
the flush collaborator.
-/

namespace XbpsSign

/-- Raw byte strings (file contents, PEM key material, signatures, digests)
as lists of byte values. -/
abbrev Bytes := List Nat

/-- OpenSSL object identifier number for SHA-1, as passed to RSA_sign. -/
def NID_sha1 : Nat := 64

/-- OpenSSL object identifier number for SHA-256. -/
def NID_sha256 : Nat := 672

/-- XBPS_SHA256_DIGEST_SIZE: byte length of a SHA-256 digest (32 bytes,
256 bits). -/
def XBPS_SHA256_DIGEST_SIZE : Nat := 32

/-- POSIX EINVAL error number. -/
def EINVAL : Nat := 22

/-- Shallow embedding of rsa_sign_file (sign.c:76-101). `signPrim` models
RSA_sign applied to the already-loaded RSA key: it receives the
digest-algorithm NID, the digest bytes and the declared digest length, and
returns the signature bytes, or none on failure. `sha256` models
xbps_file_sha256_raw, mapping a file path to the 256-bit digest of the
file content, or none when the file cannot be read. The C code passes
NID_sha1 together with the full SHA-256 digest. -/
def rsa_sign_file (signPrim : Nat → Bytes → Nat → Option Bytes)
    (sha256 : String → Option Bytes) (file : String) : Option Bytes :=
  match sha256 file with
  | none => none
  | some digest => signPrim NID_sha1 digest XBPS_SHA256_DIGEST_SIZE

/-- The trust-related entries of the repository index-meta dictionary
(repo->idxmeta) as read by sign_repo: each entry may be absent. -/
structure IdxMeta where
  publicKey : Option Bytes
  publicKeySize : Option Nat
  signatureBy : Option String
deriving DecidableEq

/-- The replacement metadata dictionary built at sign.c:201-204: all four
entries are set together. -/
structure SignedMeta where
  publicKey : Bytes
  publicKeySize : Nat
  signatureBy : String
  signatureType : String
deriving DecidableEq

/-- An opened repository: the package count of its index dictionary and its
index-meta trust entries. -/
structure RepoState where
  idxCount : Nat
  idxmeta : IdxMeta
deriving DecidableEq

/-- Externally visible steps of one sign_repo run, in order: opening the
repository, loading the private key, exporting the public key, taking the
repository lock, calling repodata_flush, unlocking, and emitting the
"failed to write repodata" error message (sign.c:218). -/
inductive Event where
  | openRepo
  | loadKey
  | genPubkey
  | lock
  | flushCall
  | unlock
  | flushError
deriving DecidableEq

/-- Environment of one sign_repo run: the outcomes of each external
collaborator call. `junkSize` is the value of the uninitialized
rpubkeysize stack variable (sign.c:142), which
xbps_dictionary_get_uint16 leaves untouched when the public-key-size
entry is absent. `flushResult` is the boolean returned by
repodata_flush. -/
structure SignRepoEnv where
  repo : Option RepoState
  openErrno : Nat
  keyLoadOk : Bool
  keyByteLen : Nat
  pubPEM : Option Bytes
  junkSize : Nat
  lockOk : Bool
  lockErrno : Nat
  flushResult : Bool
deriving DecidableEq

/-- Result of a sign_repo run: either the process exited inside
load_rsa_key (sign.c:119, exit(EXIT_FAILURE)), or the function returned
`code` after performing `events`, having passed `flushedMeta` to
repodata_flush when the flush was reached. -/
inductive SignRepoResult where
  | exited
  | ret (code : Int) (events : List Event) (flushedMeta : Option SignedMeta)
deriving DecidableEq

/-- Models xbps_data_equals(rpubkey, data) at sign.c:184: comparing the
stored public-key data object, which may be absent, against the freshly
exported public key; an absent object is not equal to any data. -/
def dataEquals : Option Bytes → Bytes → Bool
  | none, _ => false
  | some a, b => decide (a = b)

/-- The three drift checks of sign.c:182-196, each of which independently
sets the `flush` flag: stored public-key data differs (or is absent);
stored public-key-size differs from RSA_size(rsa)*8, where an absent
entry leaves the uninitialized `junk` value in place; stored
signature-by is absent or differs from the supplied signer (strcmp). -/
def computeFlush (m : IdxMeta) (pem : Bytes) (pubkeysize : Nat)
    (signedby : String) (junk : Nat) : Bool :=
  (!dataEquals m.publicKey pem)
    || decide (m.publicKeySize.getD junk ≠ pubkeysize)
    || (match m.signatureBy with
        | none => true
        | some s => decide (s ≠ signedby))

/-- RSA_size(rsa) * 8 stored into a uint16_t (sign.c:189): the key byte
length times eight, reduced modulo 2^16. -/
def pubKeySizeOf (byteLen : Nat) : Nat := byteLen * 8 % 65536

/-- The complete replacement metadata built on the rewrite path
(sign.c:201-204): public-key, public-key-size, signature-by, and
signature-type fixed to "rsa". -/
def buildMeta (pem : Bytes) (pubkeysize : Nat) (signedby : String) : SignedMeta :=
  ⟨pem, pubkeysize, signedby, "rsa"⟩

/-- The C return convention `return rv ? -1 : 0` (sign.c:233) applied to an
errno-style value. -/
def errnoCode (e : Nat) : Int := if e = 0 then 0 else -1

/-- Events of the rewrite path after a successful lock (sign.c:215-223):
the flush is called and the lock released; when repodata_flush returned
false the error message of sign.c:218 is additionally emitted. The
return value rv is not modified on that path. -/
def rewriteEvents (flushResult : Bool) : List Event :=
  [.openRepo, .loadKey, .genPubkey, .lock, .flushCall, .unlock]
    ++ (if flushResult then [] else [.flushError])

/-- Shallow embedding of sign_repo (sign.c:134-234). Control flow follows
the C exactly: missing --signedby returns -1 before any collaborator
call; a failed repository open returns errno mapped through the return
convention; an empty index sets rv to EINVAL; load_rsa_key exits the
process on key failure; a failed public-key export sets rv to EINVAL;
then the three drift checks run, and when none fired the function
returns 0 without locking or flushing; otherwise the replacement
metadata is built, the lock is taken (errno on failure), repodata_flush
is called, the lock released, and 0 is returned with rv untouched
regardless of the flush result. -/
def sign_repo (env : SignRepoEnv) (signedby : Option String) : SignRepoResult :=
  match signedby with
  | none => .ret (-1) [] none
  | some sby =>
    match env.repo with
    | none => .ret (errnoCode env.openErrno) [.openRepo] none
    | some repo =>
      if repo.idxCount = 0 then
        .ret (errnoCode EINVAL) [.openRepo] none
      else if !env.keyLoadOk then
        .exited
      else
        match env.pubPEM with
        | none => .ret (errnoCode EINVAL) [.openRepo, .loadKey] none
        | some pem =>
          if !computeFlush repo.idxmeta pem (pubKeySizeOf env.keyByteLen) sby
              env.junkSize then
            .ret 0 [.openRepo, .loadKey, .genPubkey] none
          else if !env.lockOk then
            .ret (errnoCode env.lockErrno)
              [.openRepo, .loadKey, .genPubkey, .lock] none
          else
            .ret 0 (rewriteEvents env.flushResult)
              (some (buildMeta pem (pubKeySizeOf env.keyByteLen) sby))

/-- The filesystem as seen by sign_pkg: file contents by path, plus the
result of access(path, R_OK) as a boolean (a file can exist yet be
unreadable). -/
structure FS where
  contents : String → Option Bytes
  readable : String → Bool

/-- The sibling signature path built by xbps_xasprintf at sign.c:245. -/
def sigPath (binpkg : String) : String := binpkg ++ ".sig"

/-- Effect of a successful creat(p, 0644) followed by writing bytes `b`:
the contents are replaced; when the file did not exist it is created
with mode 0644 and so becomes readable, while creat on an existing file
truncates it without changing its mode, leaving readability as it
was. -/
def FS.write (fs : FS) (p : String) (b : Bytes) : FS :=
  ⟨fun q => if q = p then some b else fs.contents q,
   fun q =>
     if q = p then
       match fs.contents p with
       | none => true
       | some _ => fs.readable p
     else fs.readable q⟩

/-- Effect of writing bytes `b` at path `p` through an already-open
descriptor (the force path: open with O_WRONLY and O_TRUNC): contents
replaced, mode and hence readability untouched. -/
def FS.setContents (fs : FS) (p : String) (b : Bytes) : FS :=
  ⟨fun q => if q = p then some b else fs.contents q, fs.readable⟩

/-- Collaborators of sign_pkg: the file digest routine, the raw RSA signing
primitive of the key named by the privkey argument, whether load_rsa_key
succeeds (on failure it calls exit(EXIT_FAILURE)), whether a creat call
at a path succeeds (it can fail, for example for permissions), whether
the force-path open succeeds at a path for reasons other than file
absence (absence always fails it, since O_CREAT is not passed), and the
byte count reported by the write call at a path (the write failed or was
short when this differs from the signature length). -/
structure PkgEnv where
  sha256 : String → Option Bytes
  signPrim : Nat → Bytes → Nat → Option Bytes
  keyOk : Bool
  creatOk : String → Bool
  openOk : String → Bool
  writeCount : String → Nat

/-- Result of one sign_pkg call: either the process exited inside
load_rsa_key, or the call returned `rv` with resulting filesystem `fs`;
`keyLoaded` records whether load_rsa_key was reached at all. -/
inductive SignPkgResult where
  | exited
  | done (rv : Nat) (fs : FS) (keyLoaded : Bool)

/-- Shallow embedding of sign_pkg (sign.c:236-299). When force is false and
the sibling .sig file is readable, the package is skipped with rv 0
before the key is loaded. Otherwise the key is loaded (process exit on
failure) and the package file is signed via rsa_sign_file (EINVAL on
failure). Then the signature file is opened: with force true through
open(O_WRONLY|O_TRUNC), which has no O_CREAT and therefore always fails
when no signature file exists, and can fail even on an existing file
(openOk); with force false through creat, which can fail (creatOk). A
failed open or creat returns EINVAL with the filesystem unchanged
(sign.c:273-278). After a successful open the file has been created or
truncated, and the write call stores writeCount bytes of the signature:
when that count is the full signature length the call returns 0, and
otherwise EINVAL with the partially written file left behind
(sign.c:279-284). -/
def sign_pkg (env : PkgEnv) (fs : FS) (binpkg : String) (force : Bool) :
    SignPkgResult :=
  if !force && fs.readable (sigPath binpkg) then
    .done 0 fs false
  else if !env.keyOk then
    .exited
  else
    match rsa_sign_file env.signPrim env.sha256 binpkg with
    | none => .done EINVAL fs true
    | some sig =>
      if force then
        match fs.contents (sigPath binpkg) with
        | none => .done EINVAL fs true
        | some _ =>
          if !env.openOk (sigPath binpkg) then
            .done EINVAL fs true
          else
            .done
              (if env.writeCount (sigPath binpkg) = sig.length then 0
               else EINVAL)
              (FS.setContents fs (sigPath binpkg)
                (sig.take (env.writeCount (sigPath binpkg)))) true
      else
        if !env.creatOk (sigPath binpkg) then
          .done EINVAL fs true
        else
          .done
            (if env.writeCount (sigPath binpkg) = sig.length then 0
             else EINVAL)
            (FS.write fs (sigPath binpkg)
              (sig.take (env.writeCount (sigPath binpkg)))) true

/-- Result of a sign_pkgs run over a package list. -/
inductive SignPkgsResult where
  | exited
  | done (rv : Nat) (fs : FS)

/-- Shallow embedding of sign_pkgs (sign.c:301-317): the packages
argv[args..argmax) are processed in list order; the first sign_pkg call
returning a nonzero rv ends the loop with that rv. -/
def sign_pkgs (env : PkgEnv) (force : Bool) : FS → List String → SignPkgsResult
  | fs, [] => .done 0 fs
  | fs, p :: rest =>
    match sign_pkg env fs p force with
    | .exited => .exited
    | .done rv fs' _ =>
      if rv = 0 then sign_pkgs env force fs' rest else .done rv fs'

/-- Claim C1 (code-bug evaluation): on a full rewrite run (unsigned
repository with one package, valid key and signer, lock acquired),
sign_repo returns status 0 whichever boolean repodata_flush reports. In
particular, when the flush collaborator reports failure (returns false),
the error message of sign.c:218 is emitted (Event.flushError) yet the
return value stays 0, because rv is never set on that path: the code
contradicts both its own error message and the stated exit status
contract. -/
theorem c1_flush_failure_still_returns_zero :
    ∀ b : Bool,
      XbpsSign.sign_repo
          ⟨some ⟨1, ⟨none, none, none⟩⟩, 0, true, 256, some [1], 0, true, 0, b⟩
          (some "signer")
        = .ret 0 (XbpsSign.rewriteEvents b)
            (some (XbpsSign.buildMeta [1] 2048 "signer")) := by
  intro b
  cases b <;> rfl

/-- Claim C3: rsa_sign_file always passes the full 256-bit (32-byte) digest
produced by the digest routine to the RSA signing primitive, while the
algorithm identifier it embeds is NID_sha1, the legacy SHA-1 identifier,
which differs from the SHA-256 identifier; this happens on every
signature for which digesting succeeds. -/
theorem c3_sha1_nid_over_sha256_digest
    (signPrim : Nat → XbpsSign.Bytes → Nat → Option XbpsSign.Bytes)
    (sha : String → Option XbpsSign.Bytes) (file : String) (d : XbpsSign.Bytes)
    (h : sha file = some d) :
    XbpsSign.rsa_sign_file signPrim sha file
        = signPrim XbpsSign.NID_sha1 d XbpsSign.XBPS_SHA256_DIGEST_SIZE
    ∧ XbpsSign.NID_sha1 ≠ XbpsSign.NID_sha256
    ∧ XbpsSign.XBPS_SHA256_DIGEST_SIZE * 8 = 256 := by
  refine ⟨?_, by decide, by decide⟩
  simp [XbpsSign.rsa_sign_file, h]

/-- Witness for claim C3 at a concrete digest routine and signing
primitive. -/
theorem c3_sha1_nid_over_sha256_digest_witness :
    XbpsSign.rsa_sign_file (fun n dg l => some (n :: l :: dg))
        (fun _ => some [5]) "f"
        = (fun n dg l => some (n :: l :: dg)) XbpsSign.NID_sha1 [5]
            XbpsSign.XBPS_SHA256_DIGEST_SIZE
    ∧ XbpsSign.NID_sha1 ≠ XbpsSign.NID_sha256
    ∧ XbpsSign.XBPS_SHA256_DIGEST_SIZE * 8 = 256 :=
  c3_sha1_nid_over_sha256_digest (fun n dg l => some (n :: l :: dg))
    (fun _ => some [5]) "f" [5] rfl

/-- Claim C7: when the signer name is not supplied, sign_repo returns -1
(nonzero) immediately, with an empty event list: no repository open, no
key load, no lock, no flush — no I/O at all. -/
theorem c7_missing_signedby_fails_before_io (env : XbpsSign.SignRepoEnv) :
    XbpsSign.sign_repo env none = .ret (-1) [] none ∧ ((-1 : Int) ≠ 0) :=
  ⟨rfl, by decide⟩

/-- Claim C8: the public-key-size stored in the rewritten metadata is the
key byte length times 8 held as an unsigned 16-bit value; for a 2048-bit
key (byte length 256) it is 2048, for a 4096-bit key (byte length 512)
it is 4096. -/
theorem c8_public_key_size_derivation (byteLen : Nat) (pem : XbpsSign.Bytes)
    (sby : String) :
    (XbpsSign.buildMeta pem (XbpsSign.pubKeySizeOf byteLen) sby).publicKeySize
        = byteLen * 8 % 2 ^ 16
    ∧ XbpsSign.pubKeySizeOf 256 = 2048
    ∧ XbpsSign.pubKeySizeOf 512 = 4096 :=
  ⟨rfl, by decide, by decide⟩

/-- Helper: the flush flag of sign.c:182-196 is set exactly when one of the
three stored trust entries fails to match the current key and signer,
provided the stored entries are well formed (public-key-size present, or
the whole block absent so that public-key is also absent); this excludes
only the corner in which the comparison would read the uninitialized
rpubkeysize variable while the public key still matches. -/
theorem computeFlush_eq_true_iff (m : XbpsSign.IdxMeta) (pem : XbpsSign.Bytes)
    (ks : Nat) (sby : String) (junk : Nat)
    (hwf : m.publicKeySize ≠ none ∨ m.publicKey = none) :
    XbpsSign.computeFlush m pem ks sby junk = true
      ↔ (m.publicKey ≠ some pem ∨ m.publicKeySize ≠ some ks
          ∨ m.signatureBy ≠ some sby) := by
  obtain ⟨pk, sz, sb⟩ := m
  cases pk <;> cases sz <;> cases sb <;>
    simp_all [XbpsSign.computeFlush, XbpsSign.dataEquals, or_assoc]

/-- Claim C2: on a run that reaches reconciliation (repository open,
nonempty index, key loaded, public key exported), the rewrite decision
is taken iff at least one of the three checks differs: stored public-key
bytes absent or different from the exported key, stored public-key-size
different from the key bit size, or stored signature-by absent or
different from the signer name (case-sensitive). On NoChange sign_repo
returns 0 having performed no lock and no flush; on Rewrite (with the
lock available) it flushes the complete replacement metadata with
public-key, public-key-size, signature-by and signature-type "rsa". The
well-formedness hypothesis excludes only a read of the uninitialized
rpubkeysize variable. -/
theorem c2_reconcile_rewrite_iff (env : XbpsSign.SignRepoEnv)
    (r : XbpsSign.RepoState) (pem : XbpsSign.Bytes) (sby : String)
    (hrepo : env.repo = some r) (hn : r.idxCount ≠ 0)
    (hkey : env.keyLoadOk = true) (hpem : env.pubPEM = some pem)
    (hwf : r.idxmeta.publicKeySize ≠ none ∨ r.idxmeta.publicKey = none) :
    (XbpsSign.computeFlush r.idxmeta pem (XbpsSign.pubKeySizeOf env.keyByteLen)
          sby env.junkSize = true
        ↔ (r.idxmeta.publicKey ≠ some pem
            ∨ r.idxmeta.publicKeySize ≠ some (XbpsSign.pubKeySizeOf env.keyByteLen)
            ∨ r.idxmeta.signatureBy ≠ some sby))
    ∧ (XbpsSign.computeFlush r.idxmeta pem (XbpsSign.pubKeySizeOf env.keyByteLen)
          sby env.junkSize = false →
        XbpsSign.sign_repo env (some sby)
            = .ret 0 [.openRepo, .loadKey, .genPubkey] none
          ∧ XbpsSign.Event.lock
              ∉ [XbpsSign.Event.openRepo, XbpsSign.Event.loadKey,
                 XbpsSign.Event.genPubkey]
          ∧ XbpsSign.Event.flushCall
              ∉ [XbpsSign.Event.openRepo, XbpsSign.Event.loadKey,
                 XbpsSign.Event.genPubkey])
    ∧ (XbpsSign.computeFlush r.idxmeta pem (XbpsSign.pubKeySizeOf env.keyByteLen)
          sby env.junkSize = true →
        env.lockOk = true →
        XbpsSign.sign_repo env (some sby)
            = .ret 0 (XbpsSign.rewriteEvents env.flushResult)
                (some ⟨pem, XbpsSign.pubKeySizeOf env.keyByteLen, sby, "rsa"⟩)) := by
  refine ⟨computeFlush_eq_true_iff r.idxmeta pem _ sby env.junkSize hwf, ?_, ?_⟩
  · intro hnf
    refine ⟨?_, by decide, by decide⟩
    simp [XbpsSign.sign_repo, hrepo, hn, hkey, hpem, hnf]
  · intro hf hl
    simp [XbpsSign.sign_repo, hrepo, hn, hkey, hpem, hf, hl, XbpsSign.buildMeta]

/-- Witness for claim C2 at a concrete, already-signed repository state
whose entries all match the current key and signer. -/
theorem c2_reconcile_rewrite_iff_witness :
    (XbpsSign.computeFlush ⟨some [1], some 2048, some "a"⟩ [1]
          (XbpsSign.pubKeySizeOf 256) "a" 0 = true
        ↔ ((⟨some [1], some 2048, some "a"⟩ : XbpsSign.IdxMeta).publicKey ≠ some [1]
            ∨ (⟨some [1], some 2048, some "a"⟩ : XbpsSign.IdxMeta).publicKeySize
                ≠ some (XbpsSign.pubKeySizeOf 256)
            ∨ (⟨some [1], some 2048, some "a"⟩ : XbpsSign.IdxMeta).signatureBy
                ≠ some "a"))
    ∧ (XbpsSign.computeFlush ⟨some [1], some 2048, some "a"⟩ [1]
          (XbpsSign.pubKeySizeOf 256) "a" 0 = false →
        XbpsSign.sign_repo
            ⟨some ⟨1, ⟨some [1], some 2048, some "a"⟩⟩, 0, true, 256, some [1],
              0, true, 0, true⟩ (some "a")
            = .ret 0 [.openRepo, .loadKey, .genPubkey] none
          ∧ XbpsSign.Event.lock
              ∉ [XbpsSign.Event.openRepo, XbpsSign.Event.loadKey,
                 XbpsSign.Event.genPubkey]
          ∧ XbpsSign.Event.flushCall
              ∉ [XbpsSign.Event.openRepo, XbpsSign.Event.loadKey,
                 XbpsSign.Event.genPubkey])
    ∧ (XbpsSign.computeFlush ⟨some [1], some 2048, some "a"⟩ [1]
          (XbpsSign.pubKeySizeOf 256) "a" 0 = true →
        true = true →
        XbpsSign.sign_repo
            ⟨some ⟨1, ⟨some [1], some 2048, some "a"⟩⟩, 0, true, 256, some [1],
              0, true, 0, true⟩ (some "a")
            = .ret 0 (XbpsSign.rewriteEvents true)
                (some ⟨[1], XbpsSign.pubKeySizeOf 256, "a", "rsa"⟩)) :=
  c2_reconcile_rewrite_iff
    ⟨some ⟨1, ⟨some [1], some 2048, some "a"⟩⟩, 0, true, 256, some [1],
      0, true, 0, true⟩
    ⟨1, ⟨some [1], some 2048, some "a"⟩⟩ [1] "a" rfl (by decide) rfl rfl
    (Or.inl (by decide))

/-- Claim C6: when the opened repository has an empty index, sign_repo sets
rv to EINVAL and returns -1 (nonzero) right after the open: no key load,
no public-key export, no reconciliation, no lock, no flush. -/
theorem c6_empty_repository_rejected (env : XbpsSign.SignRepoEnv) (sby : String)
    (r : XbpsSign.RepoState) (hrepo : env.repo = some r)
    (hempty : r.idxCount = 0) :
    XbpsSign.sign_repo env (some sby)
        = .ret (XbpsSign.errnoCode XbpsSign.EINVAL) [.openRepo] none
    ∧ XbpsSign.errnoCode XbpsSign.EINVAL ≠ 0
    ∧ XbpsSign.Event.lock ∉ [XbpsSign.Event.openRepo]
    ∧ XbpsSign.Event.flushCall ∉ [XbpsSign.Event.openRepo]
    ∧ XbpsSign.Event.loadKey ∉ [XbpsSign.Event.openRepo] := by
  refine ⟨?_, by decide, by decide, by decide, by decide⟩
  simp [XbpsSign.sign_repo, hrepo, hempty]

/-- Witness for claim C6 at a concrete empty repository. -/
theorem c6_empty_repository_rejected_witness :
    XbpsSign.sign_repo
        ⟨some ⟨0, ⟨none, none, none⟩⟩, 0, true, 256, some [1], 0, true, 0, true⟩
        (some "a")
        = .ret (XbpsSign.errnoCode XbpsSign.EINVAL) [.openRepo] none
    ∧ XbpsSign.errnoCode XbpsSign.EINVAL ≠ 0
    ∧ XbpsSign.Event.lock ∉ [XbpsSign.Event.openRepo]
    ∧ XbpsSign.Event.flushCall ∉ [XbpsSign.Event.openRepo]
    ∧ XbpsSign.Event.loadKey ∉ [XbpsSign.Event.openRepo] :=
  c6_empty_repository_rejected
    ⟨some ⟨0, ⟨none, none, none⟩⟩, 0, true, 256, some [1], 0, true, 0, true⟩
    "a" ⟨0, ⟨none, none, none⟩⟩ rfl rfl

/-- Claim C4: with force false and a readable signature file at the sibling
.sig path, sign_pkg skips the package: it returns rv 0 with the
filesystem unchanged (so the stored signature bytes are untouched) and
without loading the key. -/
theorem c4_skip_existing_signature (env : XbpsSign.PkgEnv) (fs : XbpsSign.FS)
    (p : String) (old : XbpsSign.Bytes)
    (hex : fs.contents (XbpsSign.sigPath p) = some old)
    (hread : fs.readable (XbpsSign.sigPath p) = true) :
    XbpsSign.sign_pkg env fs p false = .done 0 fs false
    ∧ fs.contents (XbpsSign.sigPath p) = some old := by
  refine ⟨?_, hex⟩
  simp [XbpsSign.sign_pkg, hread]

/-- Witness for claim C4 at a concrete filesystem holding a readable
signature file. -/
theorem c4_skip_existing_signature_witness :
    XbpsSign.sign_pkg
        ⟨fun _ => some [3], fun _ _ _ => some [7], true, fun _ => true,
          fun _ => true, fun _ => 1⟩
        ⟨fun _ => some [9], fun _ => true⟩ "p" false
        = .done 0 ⟨fun _ => some [9], fun _ => true⟩ false
    ∧ (⟨fun _ => some [9], fun _ => true⟩ : XbpsSign.FS).contents
        (XbpsSign.sigPath "p") = some [9] :=
  c4_skip_existing_signature
    ⟨fun _ => some [3], fun _ _ _ => some [7], true, fun _ => true,
      fun _ => true, fun _ => 1⟩
    ⟨fun _ => some [9], fun _ => true⟩ "p" [9] rfl rfl

/-- Claim C10: the skip decision precedes key loading: with force false and
a readable .sig file, sign_pkg returns success with keyLoaded false for
every key environment, including keyOk false (a key whose load would
otherwise terminate the process). -/
theorem c10_skip_decided_before_key_load (sha : String → Option XbpsSign.Bytes)
    (signPrim : Nat → XbpsSign.Bytes → Nat → Option XbpsSign.Bytes)
    (keyOk : Bool) (creatOk openOk : String → Bool) (writeCount : String → Nat)
    (fs : XbpsSign.FS) (p : String)
    (hread : fs.readable (XbpsSign.sigPath p) = true) :
    XbpsSign.sign_pkg ⟨sha, signPrim, keyOk, creatOk, openOk, writeCount⟩
      fs p false = .done 0 fs false := by
  simp [XbpsSign.sign_pkg, hread]

/-- Witness for claim C10 with a key environment in which loading the key
would fail (keyOk false). -/
theorem c10_skip_decided_before_key_load_witness :
    XbpsSign.sign_pkg
        ⟨fun _ => none, fun _ _ _ => none, false, fun _ => true,
          fun _ => true, fun _ => 0⟩
        ⟨fun _ => some [9], fun _ => true⟩ "p" false
        = .done 0 ⟨fun _ => some [9], fun _ => true⟩ false :=
  c10_skip_decided_before_key_load (fun _ => none) (fun _ _ _ => none) false
    (fun _ => true) (fun _ => true) (fun _ => 0)
    ⟨fun _ => some [9], fun _ => true⟩ "p" rfl

/-- Helper: one sign_pkg call mutates the filesystem at most at its own
sibling .sig path: whatever the outcome, the contents of every other
path are unchanged. -/
theorem sign_pkg_touches_only_own_sig (env : XbpsSign.PkgEnv)
    (fs : XbpsSign.FS) (p : String) (force : Bool) (rv : Nat)
    (fs' : XbpsSign.FS) (kl : Bool)
    (h : XbpsSign.sign_pkg env fs p force = .done rv fs' kl) (q : String)
    (hq : q ≠ XbpsSign.sigPath p) : fs'.contents q = fs.contents q := by
  unfold XbpsSign.sign_pkg at h
  split at h
  · injection h with h1 h2 h3
    rw [← h2]
  · split at h
    · exact absurd h (by simp)
    · split at h
      · injection h with h1 h2 h3
        rw [← h2]
      · split at h
        · split at h
          · injection h with h1 h2 h3
            rw [← h2]
          · split at h
            · injection h with h1 h2 h3
              rw [← h2]
            · injection h with h1 h2 h3
              rw [← h2]
              simp [XbpsSign.FS.setContents, hq]
        · split at h
          · injection h with h1 h2 h3
            rw [← h2]
          · injection h with h1 h2 h3
            rw [← h2]
            simp [XbpsSign.FS.write, hq]

/-- Helper: the sibling signature path determines the package path. -/
theorem sigPath_injective (a b : String) (h : XbpsSign.sigPath a = XbpsSign.sigPath b) :
    a = b := by
  have hd : a.data ++ ".sig".data = b.data ++ ".sig".data := by
    simpa [XbpsSign.sigPath] using congrArg String.data h
  have hab : a.data = b.data := by
    simpa using hd
  cases a
  cases b
  exact congrArg String.mk hab

/-- Claim C5: sign_pkgs processes the list head first; when the head fails
(nonzero rv) the run returns that rv at once — no later package is
attempted, and since one sign_pkg call can touch only its own .sig path,
no other package (in particular none listed after the failing one) has a
signature file created for it; when the head succeeds the run continues
with the remaining packages in order on the updated filesystem. -/
theorem c5_fail_fast_in_order (env : XbpsSign.PkgEnv) (force : Bool)
    (fs : XbpsSign.FS) (p : String) (rest : List String) (rv : Nat)
    (fs' : XbpsSign.FS) (kl : Bool)
    (h : XbpsSign.sign_pkg env fs p force = .done rv fs' kl) :
    (rv ≠ 0 →
      XbpsSign.sign_pkgs env force fs (p :: rest) = .done rv fs'
      ∧ ∀ q : String, q ≠ p →
          fs'.contents (XbpsSign.sigPath q) = fs.contents (XbpsSign.sigPath q))
    ∧ (rv = 0 →
      XbpsSign.sign_pkgs env force fs (p :: rest)
        = XbpsSign.sign_pkgs env force fs' rest) := by
  constructor
  · intro hrv
    refine ⟨by simp [XbpsSign.sign_pkgs, h, hrv], ?_⟩
    intro q hq
    exact sign_pkg_touches_only_own_sig env fs p force rv fs' kl h
      (XbpsSign.sigPath q) (fun he => hq (sigPath_injective q p he))
  · intro hrv
    simp [XbpsSign.sign_pkgs, h, hrv]

/-- Witness for claim C5: a package whose digest fails, followed by another
package; the run stops at the failure and the other signature paths are
untouched. -/
theorem c5_fail_fast_in_order_witness :
    (XbpsSign.EINVAL ≠ 0 →
      XbpsSign.sign_pkgs
          ⟨fun _ => none, fun _ _ _ => none, true, fun _ => true,
            fun _ => true, fun _ => 0⟩ false
          ⟨fun _ => none, fun _ => false⟩ ["b", "c"]
        = .done XbpsSign.EINVAL ⟨fun _ => none, fun _ => false⟩
      ∧ ∀ q : String, q ≠ "b" →
          (⟨fun _ => none, fun _ => false⟩ : XbpsSign.FS).contents
              (XbpsSign.sigPath q)
            = (⟨fun _ => none, fun _ => false⟩ : XbpsSign.FS).contents
                (XbpsSign.sigPath q))
    ∧ (XbpsSign.EINVAL = 0 →
      XbpsSign.sign_pkgs
          ⟨fun _ => none, fun _ _ _ => none, true, fun _ => true,
            fun _ => true, fun _ => 0⟩ false
          ⟨fun _ => none, fun _ => false⟩ ["b", "c"]
        = XbpsSign.sign_pkgs
            ⟨fun _ => none, fun _ _ _ => none, true, fun _ => true,
              fun _ => true, fun _ => 0⟩ false
            ⟨fun _ => none, fun _ => false⟩ ["c"]) :=
  c5_fail_fast_in_order
    ⟨fun _ => none, fun _ _ _ => none, true, fun _ => true, fun _ => true,
      fun _ => 0⟩ false
    ⟨fun _ => none, fun _ => false⟩ "b" ["c"] XbpsSign.EINVAL
    ⟨fun _ => none, fun _ => false⟩ true rfl

/-- Claim C9 counterexample: with force true and no existing signature
file, sign_pkg does not create the file: open(O_WRONLY|O_TRUNC) carries
no O_CREAT, so the open fails and the call returns EINVAL with the
filesystem unchanged — refuting, at this input, that a new file is
created whenever no signature file existed. Key, digest and signing all
work here, and the package is not skipped. -/
theorem c9_counterexample_force_without_existing_sig :
    XbpsSign.sign_pkg
        ⟨fun _ => some [9], fun _ _ _ => some [7], true, fun _ => true,
          fun _ => true, fun _ => 1⟩
        ⟨fun _ => none, fun _ => false⟩ "pkg" true
      = .done XbpsSign.EINVAL ⟨fun _ => none, fun _ => false⟩ true
    ∧ XbpsSign.EINVAL ≠ 0
    ∧ (⟨fun _ => none, fun _ => false⟩ : XbpsSign.FS).contents
        (XbpsSign.sigPath "pkg") = none :=
  ⟨rfl, by decide, rfl⟩

/-- Claim C9 (amended): for a package that is not skipped, with working
key, digest and signing: with force false the signature is persisted via
creat when the creat call and the full write succeed; with force true,
an existing signature file, a successful open and a full write, the file
is truncated and overwritten with the new signature bytes; with force
true and no existing signature file the open (which lacks O_CREAT)
fails and sign_pkg returns EINVAL without writing anything. A failed
creat also returns EINVAL with nothing written, while a failed or short
write after a successful creat returns EINVAL leaving a truncated or
partially written signature file behind. -/
theorem c9_write_semantics (env : XbpsSign.PkgEnv) (fs : XbpsSign.FS)
    (p : String) (d sig : XbpsSign.Bytes)
    (hsha : env.sha256 p = some d)
    (hsig : env.signPrim XbpsSign.NID_sha1 d XbpsSign.XBPS_SHA256_DIGEST_SIZE
        = some sig)
    (hkey : env.keyOk = true) :
    (fs.readable (XbpsSign.sigPath p) = false →
     env.creatOk (XbpsSign.sigPath p) = true →
     env.writeCount (XbpsSign.sigPath p) = sig.length →
      XbpsSign.sign_pkg env fs p false
          = .done 0 (XbpsSign.FS.write fs (XbpsSign.sigPath p) sig) true
        ∧ (XbpsSign.FS.write fs (XbpsSign.sigPath p) sig).contents
            (XbpsSign.sigPath p) = some sig)
    ∧ (∀ old : XbpsSign.Bytes, fs.contents (XbpsSign.sigPath p) = some old →
       env.openOk (XbpsSign.sigPath p) = true →
       env.writeCount (XbpsSign.sigPath p) = sig.length →
      XbpsSign.sign_pkg env fs p true
          = .done 0 (XbpsSign.FS.setContents fs (XbpsSign.sigPath p) sig) true
        ∧ (XbpsSign.FS.setContents fs (XbpsSign.sigPath p) sig).contents
            (XbpsSign.sigPath p) = some sig)
    ∧ (fs.contents (XbpsSign.sigPath p) = none →
      XbpsSign.sign_pkg env fs p true = .done XbpsSign.EINVAL fs true)
    ∧ (fs.readable (XbpsSign.sigPath p) = false →
       env.creatOk (XbpsSign.sigPath p) = false →
      XbpsSign.sign_pkg env fs p false = .done XbpsSign.EINVAL fs true)
    ∧ (fs.readable (XbpsSign.sigPath p) = false →
       env.creatOk (XbpsSign.sigPath p) = true →
       env.writeCount (XbpsSign.sigPath p) ≠ sig.length →
      XbpsSign.sign_pkg env fs p false
        = .done XbpsSign.EINVAL
            (XbpsSign.FS.write fs (XbpsSign.sigPath p)
              (sig.take (env.writeCount (XbpsSign.sigPath p)))) true) := by
  refine ⟨?_, ?_, ?_, ?_, ?_⟩
  · intro hread hcreat hw
    refine ⟨?_, by simp [XbpsSign.FS.write]⟩
    simp [XbpsSign.sign_pkg, hread, hkey, XbpsSign.rsa_sign_file, hsha, hsig,
      hcreat, hw]
  · intro old hold hopen hw
    refine ⟨?_, by simp [XbpsSign.FS.setContents]⟩
    simp [XbpsSign.sign_pkg, hkey, XbpsSign.rsa_sign_file, hsha, hsig, hold,
      hopen, hw]
  · intro hnone
    simp [XbpsSign.sign_pkg, hkey, XbpsSign.rsa_sign_file, hsha, hsig, hnone]
  · intro hread hcreat
    simp [XbpsSign.sign_pkg, hread, hkey, XbpsSign.rsa_sign_file, hsha, hsig,
      hcreat]
  · intro hread hcreat hw
    simp [XbpsSign.sign_pkg, hread, hkey, XbpsSign.rsa_sign_file, hsha, hsig,
      hcreat, hw]

/-- Witness for the amended claim C9 at a concrete environment in which
digesting yields [3], signing yields [7], creat and open succeed and the
write stores the full single byte. -/
theorem c9_write_semantics_witness :
    ((⟨fun _ => none, fun _ => false⟩ : XbpsSign.FS).readable
        (XbpsSign.sigPath "a") = false →
     true = true →
     (1 : Nat) = [7].length →
      XbpsSign.sign_pkg
          ⟨fun _ => some [3], fun _ _ _ => some [7], true, fun _ => true,
            fun _ => true, fun _ => 1⟩
          ⟨fun _ => none, fun _ => false⟩ "a" false
          = .done 0
              (XbpsSign.FS.write ⟨fun _ => none, fun _ => false⟩
                (XbpsSign.sigPath "a") [7]) true
        ∧ (XbpsSign.FS.write (⟨fun _ => none, fun _ => false⟩ : XbpsSign.FS)
            (XbpsSign.sigPath "a") [7]).contents (XbpsSign.sigPath "a")
            = some [7])
    ∧ (∀ old : XbpsSign.Bytes,
        (⟨fun _ => none, fun _ => false⟩ : XbpsSign.FS).contents
          (XbpsSign.sigPath "a") = some old →
       true = true →
       (1 : Nat) = [7].length →
      XbpsSign.sign_pkg
          ⟨fun _ => some [3], fun _ _ _ => some [7], true, fun _ => true,
            fun _ => true, fun _ => 1⟩
          ⟨fun _ => none, fun _ => false⟩ "a" true
          = .done 0
              (XbpsSign.FS.setContents ⟨fun _ => none, fun _ => false⟩
                (XbpsSign.sigPath "a") [7]) true
        ∧ (XbpsSign.FS.setContents
            (⟨fun _ => none, fun _ => false⟩ : XbpsSign.FS)
            (XbpsSign.sigPath "a") [7]).contents (XbpsSign.sigPath "a")
            = some [7])
    ∧ ((⟨fun _ => none, fun _ => false⟩ : XbpsSign.FS).contents
        (XbpsSign.sigPath "a") = none →
      XbpsSign.sign_pkg
          ⟨fun _ => some [3], fun _ _ _ => some [7], true, fun _ => true,
            fun _ => true, fun _ => 1⟩
          ⟨fun _ => none, fun _ => false⟩ "a" true
        = .done XbpsSign.EINVAL ⟨fun _ => none, fun _ => false⟩ true)
    ∧ ((⟨fun _ => none, fun _ => false⟩ : XbpsSign.FS).readable
        (XbpsSign.sigPath "a") = false →
       true = false →
      XbpsSign.sign_pkg
          ⟨fun _ => some [3], fun _ _ _ => some [7], true, fun _ => true,
            fun _ => true, fun _ => 1⟩
          ⟨fun _ => none, fun _ => false⟩ "a" false
        = .done XbpsSign.EINVAL ⟨fun _ => none, fun _ => false⟩ true)
    ∧ ((⟨fun _ => none, fun _ => false⟩ : XbpsSign.FS).readable
        (XbpsSign.sigPath "a") = false →
       true = true →
       (1 : Nat) ≠ [7].length →
      XbpsSign.sign_pkg
          ⟨fun _ => some [3], fun _ _ _ => some [7], true, fun _ => true,
            fun _ => true, fun _ => 1⟩
          ⟨fun _ => none, fun _ => false⟩ "a" false
        = .done XbpsSign.EINVAL
            (XbpsSign.FS.write ⟨fun _ => none, fun _ => false⟩
              (XbpsSign.sigPath "a") ([7].take 1)) true) :=
  c9_write_semantics
    ⟨fun _ => some [3], fun _ _ _ => some [7], true, fun _ => true,
      fun _ => true, fun _ => 1⟩
    ⟨fun _ => none, fun _ => false⟩ "a" [3] [7] rfl rfl rfl

end XbpsSign
